import Mathlib

/-!
# SunHavenAC: trigger classifier, worker loop and lifecycle of `RunApp.c`

A shallow embedding of `src/SunHavenAC/RunApp.c`.

* Machine integers are `Nat` / `Int` with explicit wrap-around where the C code casts.
* The process-wide `static volatile` variables are the fields of `Globals`; every C function
  that touches them is a function on `Globals`.
* `gRepeatInterval` is a C `double` holding a number of seconds; it is embedded as an exact
  rational number (see `setRepeatIntervalMilliseconds`).
* Effects on the outside world (posted events, sleeps, stores done by the worker thread) are
  recorded as a list of `Act`.
-/

namespace SunHavenAC

/-! ## Platform constants and events -/

/-- The CoreGraphics modifier-flag constants used by `compactModifierMask`.  They come from the
platform header `CGEventTypes.h`, which is not part of the repository, so they are parameters.
`kCGEventFlagMaskSecondaryFn` is `none` when the `#ifdef kCGEventFlagMaskSecondaryFn` test of
lines 54-56 fails and the branch is compiled out. -/
structure FlagMasks where
  kCGEventFlagMaskControl : Nat
  kCGEventFlagMaskCommand : Nat
  kCGEventFlagMaskAlternate : Nat
  kCGEventFlagMaskShift : Nat
  kCGEventFlagMaskSecondaryFn : Option Nat
  deriving DecidableEq, Repr

/-- The values of the constants on macOS (bits 18, 20, 19, 17 and 23 of the flags word). -/
def macFlagMasks : FlagMasks :=
  { kCGEventFlagMaskControl := 0x40000
    kCGEventFlagMaskCommand := 0x100000
    kCGEventFlagMaskAlternate := 0x80000
    kCGEventFlagMaskShift := 0x20000
    kCGEventFlagMaskSecondaryFn := some 0x800000 }

/-- The `CGEventType` values the callback distinguishes; every other value is `other`. -/
inductive CGEventType where
  | kCGEventRightMouseDown
  | kCGEventRightMouseUp
  | kCGEventOtherMouseDown
  | kCGEventOtherMouseUp
  | kCGEventKeyDown
  | kCGEventKeyUp
  | kCGEventFlagsChanged
  | kCGEventTapDisabledByTimeout
  | kCGEventTapDisabledByUserInput
  | other (raw : Nat)
  deriving DecidableEq, Repr

/-- The fields of a captured `CGEventRef` that the callback queries. -/
structure CGEvent where
  /-- Result of `CGEventGetFlags(event)`, a `uint64_t`. -/
  flags : Nat
  /-- Result of `CGEventGetIntegerValueField(event, kCGMouseEventButtonNumber)`, an `int64_t`. -/
  mouseEventButtonNumber : Int
  /-- Result of `CGEventGetIntegerValueField(event, kCGKeyboardEventKeycode)`, an `int64_t`. -/
  keyboardEventKeycode : Int
  deriving DecidableEq, Repr

/-- The C cast `(int)v` of an `int64_t`: wrap to 32 bits, two's complement. -/
def castInt (v : Int) : Int := (v + 2 ^ 31) % 2 ^ 32 - 2 ^ 31

/-- The C cast `(uint16_t)v` of an `int64_t`. -/
def castUInt16 (v : Int) : Nat := (v % 2 ^ 16).toNat

/-! ## Modifier codec (lines 48-64) -/

/-- Lines 48-58: `compactModifierMask`. -/
def compactModifierMask (K : FlagMasks) (flags : Nat) : Nat :=
  let m := 0
  let m := if flags &&& K.kCGEventFlagMaskControl ≠ 0 then m ||| (1 <<< 0) else m
  let m := if flags &&& K.kCGEventFlagMaskCommand ≠ 0 then m ||| (1 <<< 1) else m
  let m := if flags &&& K.kCGEventFlagMaskAlternate ≠ 0 then m ||| (1 <<< 2) else m
  let m := if flags &&& K.kCGEventFlagMaskShift ≠ 0 then m ||| (1 <<< 3) else m
  let m := match K.kCGEventFlagMaskSecondaryFn with
    | some fn => if flags &&& fn ≠ 0 then m ||| (1 <<< 4) else m
    | none => m
  m

/-- Lines 60-64: `maskIgnoringOption`.  `~optionBit` on a `uint64_t` is
`(2^64 - 1) ^^^ optionBit`. -/
def maskIgnoringOption (compactMask : Nat) : Nat :=
  let optionBit := 1 <<< 2
  compactMask &&& ((2 ^ 64 - 1) ^^^ optionBit)

/-! ## Shared state (lines 29-46) -/

/-- The `static` variables of `RunApp.c`.  Pointers are embedded as "is non-NULL". -/
structure Globals where
  gAssignedTriggerDown : Bool
  gWorkerRunning : Bool
  /-- Seconds. -/
  gRepeatInterval : ℚ
  gUseMouseTrigger : Bool
  gTriggerMouseButton : Int
  gTriggerKeyCode : Nat
  gTriggerModifierMask : Nat
  gAwaitingKeyUp : Bool
  gEventTap : Bool
  gRunLoopSource : Bool
  gRunLoop : Bool
  gShouldQuit : Int
  deriving DecidableEq, Repr

/-- The initialisers of lines 29-46. -/
def initialGlobals : Globals :=
  { gAssignedTriggerDown := false
    gWorkerRunning := false
    gRepeatInterval := 2 / 10
    gUseMouseTrigger := true
    gTriggerMouseButton := 2
    gTriggerKeyCode := 0
    gTriggerModifierMask := 0
    gAwaitingKeyUp := false
    gEventTap := false
    gRunLoopSource := false
    gRunLoop := false
    gShouldQuit := 0 }

/-- Line 44: `static volatile bool ignoreInitialRelease = false;`.  The variable has internal
linkage and no statement of the file assigns it (the only assignment, line 146, is commented
out), so it is the constant `false`. -/
def ignoreInitialRelease : Bool := false

/-! ## Event classifier (lines 136-214) -/

/-- What one invocation of `CGEventCallback` does. -/
structure CallbackResult where
  /-- The returned `CGEventRef`; `none` is `NULL`. -/
  ret : Option CGEvent
  /-- The shared state after the invocation. -/
  globals : Globals
  /-- Number of `pthread_create` calls made by the invocation. -/
  spawned : Nat
  /-- Whether `CGEventTapEnable(gEventTap, true)` was called. -/
  tapReenabled : Bool
  deriving DecidableEq, Repr

/-- Lines 136-214: `CGEventCallback`. -/
def CGEventCallback (K : FlagMasks) (g : Globals) (type : CGEventType) (event : CGEvent) :
    CallbackResult :=
  if type = .kCGEventTapDisabledByTimeout ∨ type = .kCGEventTapDisabledByUserInput then
    { ret := some event, globals := g, spawned := 0, tapReenabled := g.gEventTap }
  else if g.gUseMouseTrigger then
    if type = .kCGEventRightMouseDown ∨ type = .kCGEventOtherMouseDown then
      let button : Int :=
        if type = .kCGEventRightMouseDown then 1 else castInt event.mouseEventButtonNumber
      if button = 0 then
        { ret := some event, globals := g, spawned := 0, tapReenabled := false }
      else
        let mods := compactModifierMask K event.flags
        if button = g.gTriggerMouseButton ∧
            maskIgnoringOption mods = maskIgnoringOption g.gTriggerModifierMask then
          let g1 := { g with gAssignedTriggerDown := true }
          if g1.gWorkerRunning = false then
            { ret := some event, globals := { g1 with gWorkerRunning := true }, spawned := 1,
              tapReenabled := false }
          else
            { ret := some event, globals := g1, spawned := 0, tapReenabled := false }
        else
          { ret := some event, globals := g, spawned := 0, tapReenabled := false }
    else if (type = .kCGEventRightMouseUp ∨ type = .kCGEventOtherMouseUp) ∧
        ignoreInitialRelease = false then
      let button : Int :=
        if type = .kCGEventRightMouseUp then 1 else castInt event.mouseEventButtonNumber
      if button = g.gTriggerMouseButton ∧ button ≠ 0 then
        { ret := some event, globals := { g with gAssignedTriggerDown := false }, spawned := 0,
          tapReenabled := false }
      else
        { ret := some event, globals := g, spawned := 0, tapReenabled := false }
    else
      { ret := some event, globals := g, spawned := 0, tapReenabled := false }
  else if type = .kCGEventKeyDown then
    let keyCode := castUInt16 event.keyboardEventKeycode
    let mods := compactModifierMask K event.flags
    if keyCode = g.gTriggerKeyCode ∧
        maskIgnoringOption mods = maskIgnoringOption g.gTriggerModifierMask then
      let g1 := { g with gAssignedTriggerDown := true, gAwaitingKeyUp := true }
      if g1.gWorkerRunning = false then
        { ret := some event, globals := { g1 with gWorkerRunning := true }, spawned := 1,
          tapReenabled := false }
      else
        { ret := some event, globals := g1, spawned := 0, tapReenabled := false }
    else
      { ret := some event, globals := g, spawned := 0, tapReenabled := false }
  else if type = .kCGEventKeyUp then
    if g.gAwaitingKeyUp then
      { ret := some event,
        globals := { g with gAssignedTriggerDown := false, gAwaitingKeyUp := false },
        spawned := 0, tapReenabled := false }
    else
      { ret := some event, globals := g, spawned := 0, tapReenabled := false }
  else
    { ret := some event, globals := g, spawned := 0, tapReenabled := false }

/-! ## Action synthesizer and worker loop (lines 66-134) -/

/-- The two event taps the worker posts to. -/
inductive EventTapLocation where
  | kCGHIDEventTap
  | kCGSessionEventTap
  deriving DecidableEq, Repr

/-- A synthesized input event. -/
inductive SynthEvent where
  | leftMouseDown
  | leftMouseUp
  | keyboard (virtualKey : Nat) (keyDown : Bool)
  deriving DecidableEq, Repr

/-- The shared flags a thread can store to. -/
inductive SharedFlag where
  | gAssignedTriggerDown
  | gWorkerRunning
  | gAwaitingKeyUp
  | gShouldQuit
  deriving DecidableEq, Repr

/-- One observable action of the worker thread. -/
inductive Act where
  /-- The call `CGEventPost(tap, event)`. -/
  | post (tap : EventTapLocation) (event : SynthEvent)
  /-- The call `usleep(us)`. -/
  | usleep (us : Nat)
  /-- A store to a shared flag. -/
  | store (flag : SharedFlag) (value : Bool)
  deriving DecidableEq, Repr

/-- Line 23. -/
def kVK_ANSI_Z : Nat := 0x06

/-- Line 26. -/
def kVK_ANSI_X : Nat := 0x07

/-- Lines 67-95: `cancelAnimation`. -/
def cancelAnimation : List Act :=
  [ .usleep 10000,
    .post .kCGSessionEventTap (.keyboard kVK_ANSI_X true),
    .usleep 10000,
    .post .kCGSessionEventTap (.keyboard kVK_ANSI_X false),
    .usleep 20000,
    .post .kCGSessionEventTap (.keyboard kVK_ANSI_Z true),
    .usleep 10000,
    .post .kCGSessionEventTap (.keyboard kVK_ANSI_Z false),
    .usleep 20000 ]

/-- Lines 97-108: `synthesizeLeftClick`.  The arguments say whether `CGEventCreateMouseEvent`
returned a non-NULL `mouseDown` / `mouseUp`. -/
def synthesizeLeftClick (mouseDown mouseUp : Bool) : List Act :=
  (if mouseDown then [.post .kCGHIDEventTap .leftMouseDown] else []) ++
  [.usleep 20000] ++
  (if mouseUp then [.post .kCGHIDEventTap .leftMouseUp] else [])

/-- What the worker thread reads from its environment during one pass through the loop body.
The shared variables are `volatile` and written by other threads, so each read is an input. -/
structure WorkerObs where
  /-- Whether `mouseDown` of line 101 is non-NULL. -/
  mouseDown : Bool
  /-- Whether `mouseUp` of line 102 is non-NULL. -/
  mouseUp : Bool
  /-- The value of `gRepeatInterval` read at line 114. -/
  gRepeatInterval : ℚ
  /-- Line 116-119: `none` when `CGEventCreate(NULL)` is NULL, else the sampled flags. -/
  flagsEvent : Option Nat
  /-- The value of `gAssignedTriggerDown` read at line 128. -/
  gAssignedTriggerDown : Bool
  /-- The value of `gShouldQuit` read at line 128. -/
  gShouldQuit : Int
  deriving DecidableEq, Repr

/-- Lines 114-124: the value of `delayUs` (a 32-bit `useconds_t`) passed to `usleep` at
line 125. -/
def delayUs (K : FlagMasks) (o : WorkerObs) : Nat :=
  let delayUs := (⌊o.gRepeatInterval * 1000000⌋).toNat % 2 ^ 32
  match o.flagsEvent with
  | some flags =>
    if flags &&& K.kCGEventFlagMaskAlternate ≠ 0 then delayUs * 2 % 2 ^ 32 else delayUs
  | none => delayUs

/-- Lines 113-127: one pass through the body of the `while (1)` loop, up to the test. -/
def workerIteration (K : FlagMasks) (o : WorkerObs) : List Act :=
  synthesizeLeftClick o.mouseDown o.mouseUp ++
  [.usleep (delayUs K o)] ++
  cancelAnimation ++
  [.usleep 100000]

/-- Lines 110-134: `CancelAnimationWorker`, run against the observations of its successive
iterations.  The result is the trace of actions and whether the function returned; it has not
returned when the observations are used up while the loop is still going. -/
def CancelAnimationWorker (K : FlagMasks) : List WorkerObs → List Act × Bool
  | [] => ([], false)
  | o :: rest =>
    if o.gAssignedTriggerDown = false ∨ o.gShouldQuit ≠ 0 then
      (workerIteration K o ++ [.store .gWorkerRunning false], true)
    else
      let r := CancelAnimationWorker K rest
      (workerIteration K o ++ r.1, r.2)

/-- Total time, in microseconds, spent in `usleep` by a trace. -/
def totalSleep : List Act → Nat
  | [] => 0
  | .usleep us :: t => us + totalSleep t
  | _ :: t => totalSleep t

/-- The synthesized events of a trace, in order. -/
def postedEvents : List Act → List SynthEvent
  | [] => []
  | .post _ e :: t => e :: postedEvents t
  | _ :: t => postedEvents t

/-- The stores to shared flags of a trace, in order. -/
def stores : List Act → List (SharedFlag × Bool)
  | [] => []
  | .store f v :: t => (f, v) :: stores t
  | _ :: t => stores t

/-! ## Lifecycle and configuration (lines 216-300) -/

/-- Lines 216-230: `startEventTap`; `tapCreate` says whether `CGEventTapCreate` returned a
non-NULL port. -/
def startEventTap (g : Globals) (tapCreate : Bool) : Globals :=
  if g.gEventTap then g
  else
    let g := { g with gEventTap := tapCreate }
    if g.gEventTap = false then g
    else { g with gRunLoopSource := true, gRunLoop := true }

/-- Lines 232-249: `stopEventTapInternal`. -/
def stopEventTapInternal (g : Globals) : Globals :=
  { g with gRunLoopSource := false, gEventTap := false, gRunLoop := false }

/-- Lines 274-276: `stopApp`. -/
def stopApp (g : Globals) : Globals :=
  { g with gShouldQuit := 1 }

/-- Lines 263-265: the loop `while (!gShouldQuit) CFRunLoopRunInMode(...)`.  Each element of
the list is one 0.1 s slice and says whether another thread called `stopApp` during it.  The
result is the number of slices run and the state at loop exit, `none` when the slices are used
up while the loop is still going. -/
def runLoop : Globals → List Bool → Nat × Option Globals
  | g, [] => if g.gShouldQuit ≠ 0 then (0, some g) else (0, none)
  | g, stopCalled :: rest =>
    if g.gShouldQuit ≠ 0 then (0, some g)
    else
      let r := runLoop (if stopCalled then stopApp g else g) rest
      (r.1 + 1, r.2)

/-- Lines 251-272: `runApp`.  `tapCreate` is the outcome of `CGEventTapCreate`,
`stopDuringStart` says whether another thread called `stopApp` between lines 252 and 256, and
`slices` is the environment of the run loop.  The result is the number of run-loop iterations
executed and the state on return, `none` when `runApp` has not returned. -/
def runApp (g : Globals) (tapCreate stopDuringStart : Bool) (slices : List Bool) :
    Nat × Option Globals :=
  let g := { g with gShouldQuit := 0 }
  let g := { g with gAssignedTriggerDown := false }
  let g := startEventTap g tapCreate
  let g := if stopDuringStart then stopApp g else g
  if g.gShouldQuit ≠ 0 then
    (0, some (stopEventTapInternal g))
  else
    let r := runLoop g slices
    (r.1, r.2.map fun g => stopEventTapInternal { g with gAssignedTriggerDown := false })

/-- Lines 283-287: `setRepeatIntervalMilliseconds`. -/
def setRepeatIntervalMilliseconds (g : Globals) (milliseconds : Int) : Globals :=
  let milliseconds := if milliseconds < 1 then 1 else milliseconds
  let milliseconds := if milliseconds > 500 then 500 else milliseconds
  { g with gRepeatInterval := (milliseconds : ℚ) / 1000 }

/-- Lines 289-294: `setMouseTrigger`. -/
def setMouseTrigger (g : Globals) (buttonNumber : Int) (modifiersMask : Nat) : Globals :=
  let buttonNumber := if buttonNumber < 0 then 0 else buttonNumber
  { g with
    gUseMouseTrigger := true
    gTriggerMouseButton := buttonNumber
    gTriggerModifierMask := modifiersMask }

/-- Lines 296-300: `setKeyTrigger`. -/
def setKeyTrigger (g : Globals) (keyCode : Nat) (modifiersMask : Nat) : Globals :=
  { g with
    gUseMouseTrigger := false
    gTriggerKeyCode := keyCode
    gTriggerModifierMask := modifiersMask }

/-! ## The program as a transition system -/

/-- The shared state together with the number of live worker threads. -/
structure System where
  globals : Globals
  liveWorkers : Nat
  deriving DecidableEq, Repr

/-- The state at program start: the initialisers, and no worker thread. -/
def System.initial : System :=
  { globals := initialGlobals, liveWorkers := 0 }

/-- The atomic steps of the program. -/
inductive Step where
  /-- One invocation of `CGEventCallback`. -/
  | callback (type : CGEventType) (event : CGEvent)
  /-- A live worker reaches the test of line 128 and continues or leaves the loop. -/
  | workerLoopTest
  | setRepeatIntervalMilliseconds (milliseconds : Int)
  | setMouseTrigger (buttonNumber : Int) (modifiersMask : Nat)
  | setKeyTrigger (keyCode : Nat) (modifiersMask : Nat)
  | stopApp
  /-- Lines 252-255 of `runApp`. -/
  | runAppStart (tapCreate : Bool)
  /-- Line 258 of `runApp`: the cleanup of the early return. -/
  | runAppEarlyReturn
  /-- Lines 268-269 of `runApp`. -/
  | runAppCleanup
  deriving DecidableEq, Repr

/-- The effect of one step.  Every `pthread_create` of the callback starts one worker; a worker
that leaves the loop stores `gWorkerRunning = false` (line 132) and ends. -/
def System.step (K : FlagMasks) (s : System) : Step → System
  | .callback type event =>
    let r := CGEventCallback K s.globals type event
    { globals := r.globals, liveWorkers := s.liveWorkers + r.spawned }
  | .workerLoopTest =>
    if s.liveWorkers = 0 then s
    else if s.globals.gAssignedTriggerDown = false ∨ s.globals.gShouldQuit ≠ 0 then
      { globals := { s.globals with gWorkerRunning := false }, liveWorkers := s.liveWorkers - 1 }
    else s
  | .setRepeatIntervalMilliseconds ms =>
    { s with globals := setRepeatIntervalMilliseconds s.globals ms }
  | .setMouseTrigger b m => { s with globals := setMouseTrigger s.globals b m }
  | .setKeyTrigger k m => { s with globals := setKeyTrigger s.globals k m }
  | .stopApp => { s with globals := stopApp s.globals }
  | .runAppStart tapCreate =>
    let g := { s.globals with gShouldQuit := 0, gAssignedTriggerDown := false }
    { s with globals := startEventTap g tapCreate }
  | .runAppEarlyReturn => { s with globals := stopEventTapInternal s.globals }
  | .runAppCleanup =>
    { s with globals := stopEventTapInternal { s.globals with gAssignedTriggerDown := false } }

/-- The state after a sequence of steps. -/
def System.run (K : FlagMasks) (s : System) (steps : List Step) : System :=
  steps.foldl (System.step K) s

/-- The number of workers spawned by a sequence of callback invocations, with the state after
them. -/
def spawnCount (K : FlagMasks) : Globals → List (CGEventType × CGEvent) → Nat × Globals
  | g, [] => (0, g)
  | g, (type, event) :: rest =>
    let r := CGEventCallback K g type event
    let t := spawnCount K r.globals rest
    (r.spawned + t.1, t.2)

/-! ## Statement vocabulary -/

/-- The platform constants name different modifier keys: control, alternate and shift are
non-zero, and no two of the constants share a bit. -/
def FlagMasks.Disjoint (K : FlagMasks) : Prop :=
  K.kCGEventFlagMaskControl ≠ 0 ∧ K.kCGEventFlagMaskAlternate ≠ 0 ∧
  K.kCGEventFlagMaskShift ≠ 0 ∧
  K.kCGEventFlagMaskControl &&& K.kCGEventFlagMaskCommand = 0 ∧
  K.kCGEventFlagMaskControl &&& K.kCGEventFlagMaskAlternate = 0 ∧
  K.kCGEventFlagMaskControl &&& K.kCGEventFlagMaskShift = 0 ∧
  K.kCGEventFlagMaskAlternate &&& K.kCGEventFlagMaskCommand = 0 ∧
  K.kCGEventFlagMaskAlternate &&& K.kCGEventFlagMaskShift = 0 ∧
  K.kCGEventFlagMaskShift &&& K.kCGEventFlagMaskCommand = 0 ∧
  match K.kCGEventFlagMaskSecondaryFn with
  | some fn =>
    K.kCGEventFlagMaskControl &&& fn = 0 ∧ K.kCGEventFlagMaskAlternate &&& fn = 0 ∧
    K.kCGEventFlagMaskShift &&& fn = 0
  | none => True

/-- The button index of a mouse event as the callback computes it (lines 149-151 and 169):
`1` for the right button, the event's button number otherwise. -/
def buttonIndex (type : CGEventType) (event : CGEvent) : Int :=
  if type = .kCGEventRightMouseDown ∨ type = .kCGEventRightMouseUp then 1
  else castInt event.mouseEventButtonNumber

/-- The event type is a press of the configured trigger kind. -/
def pressOfConfiguredKind (g : Globals) (type : CGEventType) : Prop :=
  if g.gUseMouseTrigger then type = .kCGEventRightMouseDown ∨ type = .kCGEventOtherMouseDown
  else type = .kCGEventKeyDown

/-- The event type is a press or a release of the configured trigger kind. -/
def pressOrReleaseOfConfiguredKind (g : Globals) (type : CGEventType) : Prop :=
  if g.gUseMouseTrigger then
    type = .kCGEventRightMouseDown ∨ type = .kCGEventOtherMouseDown ∨
    type = .kCGEventRightMouseUp ∨ type = .kCGEventOtherMouseUp
  else type = .kCGEventKeyDown ∨ type = .kCGEventKeyUp

/-- The event's compacted modifiers equal the configured mask, ignoring Option. -/
def modifiersMatch (K : FlagMasks) (g : Globals) (event : CGEvent) : Prop :=
  maskIgnoringOption (compactModifierMask K event.flags) =
    maskIgnoringOption g.gTriggerModifierMask

/-- The press carries the configured code and modifiers and, for a mouse trigger, is not
button 0. -/
def pressMatches (K : FlagMasks) (g : Globals) (type : CGEventType) (event : CGEvent) : Prop :=
  if g.gUseMouseTrigger then
    buttonIndex type event = g.gTriggerMouseButton ∧ modifiersMatch K g event ∧
    buttonIndex type event ≠ 0
  else
    castUInt16 event.keyboardEventKeycode = g.gTriggerKeyCode ∧ modifiersMatch K g event

/-- The shared state after an accepted press. -/
def armed (g : Globals) : Globals :=
  { g with
    gAssignedTriggerDown := true
    gWorkerRunning := true
    gAwaitingKeyUp := if g.gUseMouseTrigger then g.gAwaitingKeyUp else true }

/-- The event is the release of the configured trigger: with a mouse trigger on a button other
than 0, a right/other mouse-up of that button; with a key trigger whose key-down has been
accepted, the key-up of the trigger key. -/
def releaseOfTrigger (g : Globals) (type : CGEventType) (event : CGEvent) : Prop :=
  if g.gUseMouseTrigger then
    g.gTriggerMouseButton ≠ 0 ∧
    (type = .kCGEventRightMouseUp ∨ type = .kCGEventOtherMouseUp) ∧
    buttonIndex type event = g.gTriggerMouseButton
  else
    g.gAwaitingKeyUp = true ∧ type = .kCGEventKeyUp ∧
    castUInt16 event.keyboardEventKeycode = g.gTriggerKeyCode

/-- The worker sampled the Option modifier as held (lines 118-122). -/
def optionSampled (K : FlagMasks) (o : WorkerObs) : Bool :=
  match o.flagsEvent with
  | some flags => decide (flags &&& K.kCGEventFlagMaskAlternate ≠ 0)
  | none => false

/-- The loop test of line 128 succeeds on this observation: the trigger is not held or shutdown
is requested. -/
def loopExits (o : WorkerObs) : Bool :=
  !o.gAssignedTriggerDown || decide (o.gShouldQuit ≠ 0)

/-- The observations of the iterations a worker goes through: all those before the first one
on which the loop test succeeds, and that one. -/
def iterationsRun (obs : List WorkerObs) : List WorkerObs :=
  obs.takeWhile (fun o => !loopExits o) ++ (obs.dropWhile (fun o => !loopExits o)).take 1

/-- The actions of a sequence of complete iterations. -/
def iterationsTrace (K : FlagMasks) : List WorkerObs → List Act
  | [] => []
  | o :: rest => workerIteration K o ++ iterationsTrace K rest

/-- The events one complete iteration posts: the left click (each half when its event could be
created), then the four key events of the cancel sequence. -/
def iterationEvents (o : WorkerObs) : List SynthEvent :=
  (if o.mouseDown then [SynthEvent.leftMouseDown] else []) ++
  (if o.mouseUp then [SynthEvent.leftMouseUp] else []) ++
  [.keyboard kVK_ANSI_X true, .keyboard kVK_ANSI_X false,
   .keyboard kVK_ANSI_Z true, .keyboard kVK_ANSI_Z false]

instance (g : Globals) (type : CGEventType) : Decidable (pressOfConfiguredKind g type) := by
  unfold pressOfConfiguredKind; infer_instance

instance (g : Globals) (type : CGEventType) :
    Decidable (pressOrReleaseOfConfiguredKind g type) := by
  unfold pressOrReleaseOfConfiguredKind; infer_instance

instance (K : FlagMasks) (g : Globals) (event : CGEvent) : Decidable (modifiersMatch K g event) := by
  unfold modifiersMatch; infer_instance

instance (K : FlagMasks) (g : Globals) (type : CGEventType) (event : CGEvent) :
    Decidable (pressMatches K g type event) := by
  unfold pressMatches; infer_instance

instance (g : Globals) (type : CGEventType) (event : CGEvent) :
    Decidable (releaseOfTrigger g type event) := by
  unfold releaseOfTrigger; infer_instance

/-! ## Lemmas on the modifier codec -/

theorem compactModifierMask_lt (K : FlagMasks) (flags : Nat) :
    compactModifierMask K flags < 32 := by
  unfold compactModifierMask
  cases K.kCGEventFlagMaskSecondaryFn <;> simp only [] <;> split_ifs <;> decide

theorem or_and_right (x y z : Nat) : (x ||| y) &&& z = (x &&& z) ||| (y &&& z) := by
  rw [Nat.land_comm, Nat.and_or_distrib_left, Nat.land_comm z x, Nat.land_comm z y]

theorem testBit_not_optionBit (i : Nat) :
    ((2 ^ 64 - 1) ^^^ (1 <<< 2)).testBit i = (decide (i < 64) && !decide (i = 2)) := by
  have h4 : (1 <<< 2 : Nat) = 2 ^ 2 := by decide
  rw [Nat.testBit_xor, Nat.testBit_two_pow_sub_one, h4, Nat.testBit_two_pow]
  by_cases h1 : i < 64 <;> by_cases h2 : i = 2 <;> simp [h1, h2, eq_comm]

theorem maskIgnoringOption_eq_iff (x y : Nat) (hx : x < 2 ^ 64) (hy : y < 2 ^ 64) :
    maskIgnoringOption x = maskIgnoringOption y ↔
      ∀ i, i ≠ 2 → x.testBit i = y.testBit i := by
  unfold maskIgnoringOption
  constructor
  · intro h i hi
    by_cases h64 : i < 64
    · have := congrArg (fun z => z.testBit i) h
      simp only [Nat.testBit_and, testBit_not_optionBit] at this
      simpa [h64, hi] using this
    · have hle : 2 ^ 64 ≤ 2 ^ i := Nat.pow_le_pow_right (by decide) (by omega)
      rw [Nat.testBit_lt_two_pow (lt_of_lt_of_le hx hle),
        Nat.testBit_lt_two_pow (lt_of_lt_of_le hy hle)]
  · intro h
    apply Nat.eq_of_testBit_eq
    intro i
    simp only [Nat.testBit_and, testBit_not_optionBit]
    by_cases h2 : i = 2
    · simp [h2]
    · rw [h i h2]

/-! ## Lemmas on the classifier -/

theorem callback_mouse_press (K : FlagMasks) (g : Globals) (type : CGEventType)
    (event : CGEvent) (hm : g.gUseMouseTrigger = true)
    (ht : type = .kCGEventRightMouseDown ∨ type = .kCGEventOtherMouseDown) :
    CGEventCallback K g type event =
      if pressMatches K g type event then
        { ret := some event, globals := armed g,
          spawned := if g.gWorkerRunning then 0 else 1, tapReenabled := false }
      else { ret := some event, globals := g, spawned := 0, tapReenabled := false } := by
  rcases ht with h | h <;> subst h <;>
    simp only [CGEventCallback, pressMatches, modifiersMatch, armed, buttonIndex, hm] <;>
    simp <;> split_ifs <;> first | (exfalso; tauto) | simp_all

theorem callback_key_press (K : FlagMasks) (g : Globals)
    (event : CGEvent) (hm : g.gUseMouseTrigger = false) :
    CGEventCallback K g .kCGEventKeyDown event =
      if pressMatches K g .kCGEventKeyDown event then
        { ret := some event, globals := armed g,
          spawned := if g.gWorkerRunning then 0 else 1, tapReenabled := false }
      else { ret := some event, globals := g, spawned := 0, tapReenabled := false } := by
  simp only [CGEventCallback, pressMatches, modifiersMatch, armed, buttonIndex, hm]
  simp
  split_ifs <;> simp_all
theorem callback_mouse_release (K : FlagMasks) (g : Globals) (type : CGEventType)
    (event : CGEvent) (hm : g.gUseMouseTrigger = true)
    (ht : type = .kCGEventRightMouseUp ∨ type = .kCGEventOtherMouseUp) :
    CGEventCallback K g type event =
      if buttonIndex type event = g.gTriggerMouseButton ∧ buttonIndex type event ≠ 0 then
        { ret := some event, globals := { g with gAssignedTriggerDown := false },
          spawned := 0, tapReenabled := false }
      else { ret := some event, globals := g, spawned := 0, tapReenabled := false } := by
  rcases ht with h | h <;> subst h <;>
    simp [CGEventCallback, buttonIndex, ignoreInitialRelease, hm]

theorem callback_key_release (K : FlagMasks) (g : Globals)
    (event : CGEvent) (hm : g.gUseMouseTrigger = false) :
    CGEventCallback K g .kCGEventKeyUp event =
      if g.gAwaitingKeyUp then
        { ret := some event,
          globals := { g with gAssignedTriggerDown := false, gAwaitingKeyUp := false },
          spawned := 0, tapReenabled := false }
      else { ret := some event, globals := g, spawned := 0, tapReenabled := false } := by
  simp [CGEventCallback, hm]

theorem callback_ret (K : FlagMasks) (g : Globals) (type : CGEventType) (event : CGEvent) :
    (CGEventCallback K g type event).ret = some event := by
  unfold CGEventCallback
  simp only []
  split_ifs <;> rfl

theorem callback_other (K : FlagMasks) (g : Globals) (type : CGEventType) (event : CGEvent)
    (h : ¬ pressOrReleaseOfConfiguredKind g type) :
    (CGEventCallback K g type event).globals = g ∧
      (CGEventCallback K g type event).spawned = 0 := by
  unfold pressOrReleaseOfConfiguredKind at h
  cases hm : g.gUseMouseTrigger <;> rw [hm] at h <;> simp at h <;>
    cases type <;> simp_all [CGEventCallback]

theorem press_matches_result (K : FlagMasks) (g : Globals) (type : CGEventType)
    (event : CGEvent) (hkind : pressOfConfiguredKind g type) :
    CGEventCallback K g type event =
      if pressMatches K g type event then
        { ret := some event, globals := armed g,
          spawned := if g.gWorkerRunning then 0 else 1, tapReenabled := false }
      else { ret := some event, globals := g, spawned := 0, tapReenabled := false } := by
  unfold pressOfConfiguredKind at hkind
  cases hm : g.gUseMouseTrigger
  · rw [hm] at hkind
    simp only [Bool.false_eq_true, if_false] at hkind
    subst hkind
    exact callback_key_press K g event hm
  · rw [hm] at hkind
    simp only [if_true] at hkind
    exact callback_mouse_press K g type event hm hkind

theorem release_result (K : FlagMasks) (g : Globals) (type : CGEventType) (event : CGEvent)
    (hr : pressOrReleaseOfConfiguredKind g type) (hk : ¬ pressOfConfiguredKind g type) :
    (CGEventCallback K g type event).globals.gWorkerRunning = g.gWorkerRunning ∧
      (CGEventCallback K g type event).spawned = 0 := by
  unfold pressOrReleaseOfConfiguredKind at hr
  unfold pressOfConfiguredKind at hk
  cases hm : g.gUseMouseTrigger
  · rw [hm] at hr hk
    simp only [Bool.false_eq_true, if_false] at hr hk
    rcases hr with h | h
    · exact absurd h hk
    · subst h
      rw [callback_key_release K g event hm]
      split_ifs <;> exact ⟨rfl, rfl⟩
  · rw [hm] at hr hk
    simp only [if_true] at hr hk
    have ht : type = .kCGEventRightMouseUp ∨ type = .kCGEventOtherMouseUp := by tauto
    rw [callback_mouse_release K g type event hm ht]
    split_ifs <;> exact ⟨rfl, rfl⟩

/-! ## Lemmas on the repeat interval and the worker -/

theorem floor_milliseconds (c : Int) : ⌊(c : ℚ) / 1000 * 1000000⌋ = 1000 * c := by
  have h : (c : ℚ) / 1000 * 1000000 = ((1000 * c : ℤ) : ℚ) := by push_cast; ring
  rw [h, Int.floor_intCast]

theorem setRepeatInterval_value (g : Globals) (ms : Int) :
    (setRepeatIntervalMilliseconds g ms).gRepeatInterval =
      ((max 1 (min 500 ms) : Int) : ℚ) / 1000 := by
  unfold setRepeatIntervalMilliseconds
  simp only []
  congr 2
  split_ifs <;> omega

theorem totalSleep_append (a b : List Act) : totalSleep (a ++ b) = totalSleep a + totalSleep b := by
  induction a with
  | nil => simp [totalSleep]
  | cons x t ih => cases x <;> simp [totalSleep, ih, Nat.add_assoc]

theorem postedEvents_append (a b : List Act) :
    postedEvents (a ++ b) = postedEvents a ++ postedEvents b := by
  induction a with
  | nil => simp [postedEvents]
  | cons x t ih => cases x <;> simp [postedEvents, ih]

theorem stores_append (a b : List Act) : stores (a ++ b) = stores a ++ stores b := by
  induction a with
  | nil => simp [stores]
  | cons x t ih => cases x <;> simp [stores, ih]

theorem totalSleep_workerIteration (K : FlagMasks) (o : WorkerObs) :
    totalSleep (workerIteration K o) = 190000 + delayUs K o := by
  unfold workerIteration synthesizeLeftClick cancelAnimation
  simp only [totalSleep_append]
  cases o.mouseDown <;> cases o.mouseUp <;> simp [totalSleep] <;> omega

theorem postedEvents_workerIteration (K : FlagMasks) (o : WorkerObs) :
    postedEvents (workerIteration K o) = iterationEvents o := by
  unfold workerIteration synthesizeLeftClick cancelAnimation iterationEvents
  simp only [postedEvents_append]
  cases o.mouseDown <;> cases o.mouseUp <;> simp [postedEvents]

theorem stores_workerIteration (K : FlagMasks) (o : WorkerObs) :
    stores (workerIteration K o) = [] := by
  unfold workerIteration synthesizeLeftClick cancelAnimation
  simp only [stores_append]
  cases o.mouseDown <;> cases o.mouseUp <;> simp [stores]

theorem delayUs_of_interval (K : FlagMasks) (i : Nat) (hi : i ≤ 500) (o : WorkerObs)
    (ho : o.gRepeatInterval = (i : ℚ) / 1000) :
    delayUs K o = if optionSampled K o then 2000 * i else 1000 * i := by
  have hf : ⌊o.gRepeatInterval * 1000000⌋ = 1000 * (i : Int) := by
    have h := floor_milliseconds (i : Int)
    rw [ho]
    rw [Int.cast_natCast] at h
    exact h
  unfold delayUs optionSampled
  rw [hf]
  have h1 : (1000 * (i : Int)).toNat = 1000 * i := by omega
  rw [h1]
  cases o.flagsEvent with
  | none => simp; omega
  | some flags =>
    simp only []
    by_cases hfl : flags &&& K.kCGEventFlagMaskAlternate = 0
    · simp [hfl]; omega
    · simp [hfl]; omega

theorem iterationsRun_cons (o : WorkerObs) (rest : List WorkerObs) :
    iterationsRun (o :: rest) = o :: (if loopExits o then [] else iterationsRun rest) := by
  cases h : loopExits o <;> simp [iterationsRun, List.takeWhile, List.dropWhile, h]

theorem stores_iterationsTrace (K : FlagMasks) (obs : List WorkerObs) :
    stores (iterationsTrace K obs) = [] := by
  induction obs with
  | nil => rfl
  | cons o rest ih => simp [iterationsTrace, stores_append, stores_workerIteration, ih]

theorem worker_trace (K : FlagMasks) (obs : List WorkerObs) :
    CancelAnimationWorker K obs =
      (iterationsTrace K (iterationsRun obs) ++
        (if obs.any loopExits then [Act.store .gWorkerRunning false] else []),
       obs.any loopExits) := by
  induction obs with
  | nil => simp [CancelAnimationWorker, iterationsRun, iterationsTrace]
  | cons o rest ih =>
    rw [iterationsRun_cons]
    by_cases h : o.gAssignedTriggerDown = false ∨ o.gShouldQuit ≠ 0
    · have hl : loopExits o = true := by
        rcases h with h | h <;> simp [loopExits, h]
      simp [CancelAnimationWorker, h, hl, iterationsTrace]
    · have hl : loopExits o = false := by
        simp only [not_or, Bool.not_eq_false, ne_eq, not_not] at h
        simp [loopExits, h.1, h.2]
      simp [CancelAnimationWorker, h, hl, iterationsTrace, ih]

theorem worker_returns_when_released (K : FlagMasks) (o : WorkerObs) (rest : List WorkerObs)
    (hrel : o.gAssignedTriggerDown = false) :
    CancelAnimationWorker K (o :: rest) =
      (workerIteration K o ++ [Act.store .gWorkerRunning false], true) := by
  simp [CancelAnimationWorker, hrel]

/-! ## Lemmas on the transition system -/

theorem startEventTap_gWorkerRunning (g : Globals) (tapCreate : Bool) :
    (startEventTap g tapCreate).gWorkerRunning = g.gWorkerRunning := by
  unfold startEventTap
  simp only []
  split_ifs <;> rfl

theorem callback_worker_count (K : FlagMasks) (g : Globals) (type : CGEventType)
    (event : CGEvent) :
    ((CGEventCallback K g type event).globals.gWorkerRunning = true ∧
      (CGEventCallback K g type event).spawned = if g.gWorkerRunning then 0 else 1) ∨
    ((CGEventCallback K g type event).globals.gWorkerRunning = g.gWorkerRunning ∧
      (CGEventCallback K g type event).spawned = 0) := by
  by_cases hk : pressOfConfiguredKind g type
  · rw [press_matches_result K g type event hk]
    by_cases hp : pressMatches K g type event
    · left; simp [hp, armed]
    · right; simp [hp]
  · right
    by_cases hr : pressOrReleaseOfConfiguredKind g type
    · exact release_result K g type event hr hk
    · obtain ⟨h1, h2⟩ := callback_other K g type event hr
      rw [h1]
      exact ⟨rfl, h2⟩

/-- The invariant: the number of live workers is 1 when `gWorkerRunning` is set, else 0. -/
theorem step_preserves_worker_count (K : FlagMasks) (s : System) (st : Step)
    (h : s.liveWorkers = if s.globals.gWorkerRunning then 1 else 0) :
    (s.step K st).liveWorkers = if (s.step K st).globals.gWorkerRunning then 1 else 0 := by
  cases st with
  | callback type event =>
    simp only [System.step]
    rcases callback_worker_count K s.globals type event with ⟨h1, h2⟩ | ⟨h1, h2⟩
    · simp only [h1, h2, h]
      cases s.globals.gWorkerRunning <;> simp
    · simp only [h1, h2, h]
      cases s.globals.gWorkerRunning <;> simp
  | workerLoopTest =>
    simp only [System.step]
    by_cases h0 : s.liveWorkers = 0
    · simpa [h0] using h
    · by_cases hx : s.globals.gAssignedTriggerDown = false ∨ s.globals.gShouldQuit ≠ 0
      · have h1 : s.liveWorkers = 1 := by
          cases hw : s.globals.gWorkerRunning <;> simp [hw] at h <;> omega
        simp [h0, hx, h1]
      · simpa [h0, hx] using h
  | setRepeatIntervalMilliseconds ms => simpa [System.step, setRepeatIntervalMilliseconds] using h
  | setMouseTrigger b m => simpa [System.step, setMouseTrigger] using h
  | setKeyTrigger k m => simpa [System.step, setKeyTrigger] using h
  | stopApp => simpa [System.step, stopApp] using h
  | runAppStart tapCreate =>
    simp only [System.step, startEventTap_gWorkerRunning]
    exact h
  | runAppEarlyReturn => simpa [System.step, stopEventTapInternal] using h
  | runAppCleanup => simpa [System.step, stopEventTapInternal] using h

theorem run_preserves_worker_count (K : FlagMasks) (steps : List Step) (s : System)
    (h : s.liveWorkers = if s.globals.gWorkerRunning then 1 else 0) :
    (s.run K steps).liveWorkers = if (s.run K steps).globals.gWorkerRunning then 1 else 0 := by
  induction steps generalizing s with
  | nil => simpa [System.run] using h
  | cons st rest ih =>
    simp only [System.run, List.foldl_cons]
    exact ih (s.step K st) (step_preserves_worker_count K s st h)

theorem spawnCount_presses (K : FlagMasks) (presses : List (CGEventType × CGEvent))
    (g : Globals)
    (hall : ∀ p ∈ presses, pressOfConfiguredKind g p.1 ∧ pressMatches K g p.1 p.2) :
    (spawnCount K g presses).1 = if g.gWorkerRunning = true ∨ presses = [] then 0 else 1 := by
  induction presses generalizing g with
  | nil => simp [spawnCount]
  | cons p rest ih =>
    obtain ⟨type, event⟩ := p
    have hp := hall (type, event) (List.mem_cons_self _ _)
    have hc := press_matches_result K g type event hp.1
    simp only [hp.2, if_true] at hc
    have hrest : ∀ q ∈ rest, pressOfConfiguredKind (armed g) q.1 ∧
        pressMatches K (armed g) q.1 q.2 := by
      intro q hq
      have := hall q (List.mem_cons_of_mem _ hq)
      simpa [pressOfConfiguredKind, pressMatches, modifiersMatch, armed] using this
    simp only [spawnCount, hc]
    rw [ih (armed g) hrest]
    cases hw : g.gWorkerRunning <;> simp [armed]

theorem runLoop_without_stop (g : Globals) (hq : g.gShouldQuit = 0) (n : Nat) :
    runLoop g (List.replicate n false) = (n, none) := by
  induction n with
  | zero => simp [runLoop, hq]
  | succ k ih => simp [List.replicate_succ, runLoop, hq, ih]

/-! ## C1 -/

/-- C1: the press test `maskIgnoringOption(compactModifierMask(f)) == maskIgnoringOption(m)`
holds exactly when the compacted event flags and the configured 64-bit mask `m` agree on every
bit other than bit 2 (Option).  With the mask `{Control}` (bit 0) configured, events whose flags
are `{Control}` or `{Control, Option}` pass the test and events whose flags are
`{Control, Shift}` or empty do not. -/
theorem modifier_match_ignores_exactly_option (K : FlagMasks) (hK : K.Disjoint)
    (f m : Nat) (hm : m < 2 ^ 64) :
    (maskIgnoringOption (compactModifierMask K f) = maskIgnoringOption m ↔
      ∀ i, i ≠ 2 → (compactModifierMask K f).testBit i = m.testBit i) ∧
    maskIgnoringOption (compactModifierMask K K.kCGEventFlagMaskControl) =
      maskIgnoringOption (1 <<< 0) ∧
    maskIgnoringOption (compactModifierMask K
        (K.kCGEventFlagMaskControl ||| K.kCGEventFlagMaskAlternate)) =
      maskIgnoringOption (1 <<< 0) ∧
    maskIgnoringOption (compactModifierMask K
        (K.kCGEventFlagMaskControl ||| K.kCGEventFlagMaskShift)) ≠
      maskIgnoringOption (1 <<< 0) ∧
    maskIgnoringOption (compactModifierMask K 0) ≠ maskIgnoringOption (1 <<< 0) := by
  obtain ⟨hc, ha, hs, hcm, hca, hcs, ham, has, hsm, hfn⟩ := hK
  have hac : K.kCGEventFlagMaskAlternate &&& K.kCGEventFlagMaskControl = 0 := by
    rw [Nat.land_comm]; exact hca
  have hsc : K.kCGEventFlagMaskShift &&& K.kCGEventFlagMaskControl = 0 := by
    rw [Nat.land_comm]; exact hcs
  have hsa : K.kCGEventFlagMaskShift &&& K.kCGEventFlagMaskAlternate = 0 := by
    rw [Nat.land_comm]; exact has
  refine ⟨maskIgnoringOption_eq_iff _ _
    (lt_trans (compactModifierMask_lt K f) (by decide)) hm, ?_, ?_, ?_, ?_⟩
  all_goals
    unfold compactModifierMask
    cases hf : K.kCGEventFlagMaskSecondaryFn with
    | none =>
      simp [or_and_right, hc, ha, hs, hcm, hca, hcs, ham, has, hsm, hac, hsc, hsa]
      try decide
    | some fn =>
      rw [hf] at hfn
      obtain ⟨h1, h2, h3⟩ := hfn
      simp [or_and_right, hc, ha, hs, hcm, hca, hcs, ham, has, hsm, hac, hsc, hsa,
        h1, h2, h3]
      try decide

/-- Witness for C1: the macOS constants, an event with Control and Option held, and the
configured mask `{Control}`. -/
theorem modifier_match_ignores_exactly_option_witness :
    maskIgnoringOption (compactModifierMask macFlagMasks 0xC0000) = maskIgnoringOption 1 ∧
    maskIgnoringOption (compactModifierMask macFlagMasks 0x60000) ≠ maskIgnoringOption 1 :=
  have h := modifier_match_ignores_exactly_option macFlagMasks
    (by simp [FlagMasks.Disjoint, macFlagMasks]; decide) 0xC0000 1 (by decide)
  ⟨h.2.2.1, h.2.2.2.1⟩

/-! ## C2 -/

/-- C2: on a press event of the configured kind, one invocation of `CGEventCallback` arms the
trigger exactly when the press matches (code, modifiers ignoring Option, and for a mouse trigger
a button index other than 0): a matching press leaves `gAssignedTriggerDown` and
`gWorkerRunning` true and calls `pthread_create` once when `gWorkerRunning` was false and not
at all when it was true; a press that does not match changes no state and spawns nothing; so
from a state that is not held the flag is true afterwards iff the press matches.  A mouse press
with button index 0 changes no state, whatever the configured button. -/
theorem press_arms_iff_matches (K : FlagMasks) (g : Globals) (type : CGEventType)
    (event : CGEvent) (hkind : pressOfConfiguredKind g type) :
    (pressMatches K g type event →
      (CGEventCallback K g type event).globals = armed g ∧
      (CGEventCallback K g type event).globals.gAssignedTriggerDown = true ∧
      (CGEventCallback K g type event).globals.gWorkerRunning = true ∧
      (CGEventCallback K g type event).spawned = if g.gWorkerRunning then 0 else 1) ∧
    (¬ pressMatches K g type event →
      (CGEventCallback K g type event).globals = g ∧
      (CGEventCallback K g type event).spawned = 0) ∧
    (g.gAssignedTriggerDown = false →
      ((CGEventCallback K g type event).globals.gAssignedTriggerDown = true ↔
        pressMatches K g type event)) ∧
    (g.gUseMouseTrigger = true → buttonIndex type event = 0 →
      (CGEventCallback K g type event).globals = g ∧
      (CGEventCallback K g type event).spawned = 0) := by
  have hcb := press_matches_result K g type event hkind
  rw [hcb]
  refine ⟨?_, ?_, ?_, ?_⟩
  · intro hp
    simp [hp, armed]
  · intro hp
    simp [hp]
  · intro hh
    by_cases hp : pressMatches K g type event <;> simp [hp, armed, hh]
  · intro hm hb
    have hp : ¬ pressMatches K g type event := by
      simp [pressMatches, hm, hb]
    simp [hp]

/-- Witness for C2: the default configuration (mouse button 2, empty mask), a press of button 2
with Option held. -/
theorem press_arms_iff_matches_witness :
    (CGEventCallback macFlagMasks initialGlobals .kCGEventOtherMouseDown
        ⟨0x80000, 2, 0⟩).globals.gAssignedTriggerDown = true ∧
    (CGEventCallback macFlagMasks initialGlobals .kCGEventOtherMouseDown
        ⟨0x80000, 2, 0⟩).spawned = 1 :=
  have h := (press_arms_iff_matches macFlagMasks initialGlobals .kCGEventOtherMouseDown
    ⟨0x80000, 2, 0⟩ (by decide)).1 (by decide)
  ⟨h.2.1, h.2.2.2⟩

/-! ## C3 -/

/-- C3: in every state reachable from the initial state by callback invocations on arbitrary
events, worker loop tests, configuration calls, `stopApp` and the start and cleanup of `runApp`,
at most one worker is live, and a worker is live exactly when `gWorkerRunning` is true.  And
from a state with `gWorkerRunning` false, a non-empty sequence of callback invocations on
matching trigger presses, with no worker step in between, spawns exactly one worker. -/
theorem at_most_one_worker (K : FlagMasks) :
    (∀ steps : List Step,
      (System.initial.run K steps).liveWorkers ≤ 1 ∧
      ((System.initial.run K steps).liveWorkers = 1 ↔
        (System.initial.run K steps).globals.gWorkerRunning = true)) ∧
    (∀ (g : Globals) (presses : List (CGEventType × CGEvent)),
      g.gWorkerRunning = false → presses ≠ [] →
      (∀ p ∈ presses, pressOfConfiguredKind g p.1 ∧ pressMatches K g p.1 p.2) →
      (spawnCount K g presses).1 = 1) := by
  refine ⟨fun steps => ?_, fun g presses hidle hne hall => ?_⟩
  · have h := run_preserves_worker_count K steps System.initial rfl
    cases hw : (System.initial.run K steps).globals.gWorkerRunning <;> simp [hw] at h <;>
      simp [h]
  · rw [spawnCount_presses K presses g hall]
    simp [hidle, hne]

/-- Witness for C3: the default configuration, button 2 pressed twice in a row. -/
theorem at_most_one_worker_witness :
    (spawnCount macFlagMasks initialGlobals
      [(.kCGEventOtherMouseDown, ⟨0, 2, 0⟩), (.kCGEventOtherMouseDown, ⟨0, 2, 0⟩)]).1 = 1 :=
  (at_most_one_worker macFlagMasks).2 initialGlobals
    [(.kCGEventOtherMouseDown, ⟨0, 2, 0⟩), (.kCGEventOtherMouseDown, ⟨0, 2, 0⟩)]
    rfl (by simp) (by decide)

/-! ## C4 -/

/-- C4: one invocation of `CGEventCallback` on the release of the configured trigger (mouse
trigger on a button other than 0: a right/other mouse-up of that button; key trigger with
`gAwaitingKeyUp` set: the key-up of the trigger key) leaves `gAssignedTriggerDown` false,
leaves `gWorkerRunning` as it was and spawns nothing; the outcome is the same whatever the
modifier flags of the event are. -/
theorem release_clears_held (K : FlagMasks) (g : Globals) (type : CGEventType)
    (event : CGEvent) (hrel : releaseOfTrigger g type event) :
    (CGEventCallback K g type event).globals.gAssignedTriggerDown = false ∧
    (CGEventCallback K g type event).globals.gWorkerRunning = g.gWorkerRunning ∧
    (CGEventCallback K g type event).spawned = 0 ∧
    ∀ flags : Nat,
      (CGEventCallback K g type { event with flags := flags }).globals =
        (CGEventCallback K g type event).globals := by
  unfold releaseOfTrigger at hrel
  cases hm : g.gUseMouseTrigger
  · rw [hm] at hrel
    simp only [Bool.false_eq_true, if_false] at hrel
    obtain ⟨ha, ht, _⟩ := hrel
    subst ht
    simp [callback_key_release K g _ hm, ha]
  · rw [hm] at hrel
    simp only [if_true] at hrel
    obtain ⟨hb0, ht, hb⟩ := hrel
    have hb' : ∀ flags : Nat,
        buttonIndex type { event with flags := flags } = g.gTriggerMouseButton := by
      intro flags
      rw [← hb]
      simp [buttonIndex]
    simp [callback_mouse_release K g type _ hm ht, hb, hb', hb0]

/-- Witness for C4: the default configuration with the trigger held, release of button 2 with
Shift held. -/
theorem release_clears_held_witness :
    (CGEventCallback macFlagMasks { initialGlobals with gAssignedTriggerDown := true }
      .kCGEventOtherMouseUp ⟨0x20000, 2, 0⟩).globals.gAssignedTriggerDown = false :=
  (release_clears_held macFlagMasks { initialGlobals with gAssignedTriggerDown := true }
    .kCGEventOtherMouseUp ⟨0x20000, 2, 0⟩ (by decide)).1

/-! ## C5 -/

/-- C5: for every `int` argument `ms`, `setRepeatIntervalMilliseconds(ms)` stores
`max(1, min(500, ms))` thousandths of a second; the argument 0 gives 1 ms and the argument
10000 gives 500 ms; the stored interval lies in [1, 500] ms after the call; and the delay the
worker derives from it (no Option sampled) is that many milliseconds, in microseconds. -/
theorem repeat_interval_clamped (K : FlagMasks) (g : Globals) (ms : Int) (o : WorkerObs) :
    (setRepeatIntervalMilliseconds g ms).gRepeatInterval =
      ((max 1 (min 500 ms) : Int) : ℚ) / 1000 ∧
    (setRepeatIntervalMilliseconds g 0).gRepeatInterval = 1 / 1000 ∧
    (setRepeatIntervalMilliseconds g 10000).gRepeatInterval = 500 / 1000 ∧
    1 / 1000 ≤ (setRepeatIntervalMilliseconds g ms).gRepeatInterval ∧
    (setRepeatIntervalMilliseconds g ms).gRepeatInterval ≤ 500 / 1000 ∧
    delayUs K { o with
        gRepeatInterval := (setRepeatIntervalMilliseconds g ms).gRepeatInterval
        flagsEvent := none } =
      1000 * (max 1 (min 500 ms)).toNat := by
  have hlo : (1 : Int) ≤ max 1 (min 500 ms) := le_max_left _ _
  have hhi : max 1 (min 500 ms) ≤ (500 : Int) := max_le (by decide) (min_le_left _ _)
  refine ⟨setRepeatInterval_value g ms, ?_, ?_, ?_, ?_, ?_⟩
  · rw [setRepeatInterval_value]; norm_num
  · rw [setRepeatInterval_value]; norm_num
  · rw [setRepeatInterval_value, div_le_div_iff_of_pos_right (by norm_num)]
    exact_mod_cast hlo
  · rw [setRepeatInterval_value, div_le_div_iff_of_pos_right (by norm_num)]
    exact_mod_cast hhi
  · have hc : ((max 1 (min 500 ms) : Int) : ℚ) =
        (((max 1 (min 500 ms)).toNat : Nat) : ℚ) := by
      have : ((max 1 (min 500 ms)).toNat : Int) = max 1 (min 500 ms) :=
        Int.toNat_of_nonneg (by omega)
      exact_mod_cast this.symm
    rw [delayUs_of_interval K (max 1 (min 500 ms)).toNat (by omega) _
      (by rw [setRepeatInterval_value, hc])]
    simp [optionSampled]

/-! ## C6 -/

/-- C6 (the code at the failing input): when `CGEventTapCreate` returns NULL and `stopApp` is
never called, `runApp` does not take its early return: for every `n` it has run `n` run-loop
iterations and has not returned. -/
theorem runApp_without_tap_keeps_looping (g : Globals) (n : Nat) :
    runApp { g with gEventTap := false } false false (List.replicate n false) = (n, none) := by
  simp [runApp, startEventTap, runLoop_without_stop]

/-! ## C7 -/

/-- C7: for every event type (the tap-disabled notifications included), every event and every
state, `CGEventCallback` returns the event it was given; and when the type is not a press or
release of the configured trigger kind the shared state is unchanged, in particular
`gAssignedTriggerDown`, `gWorkerRunning` and `gAwaitingKeyUp`, and nothing is spawned. -/
theorem callback_observes_only (K : FlagMasks) (g : Globals) (type : CGEventType)
    (event : CGEvent) :
    (CGEventCallback K g type event).ret = some event ∧
    (¬ pressOrReleaseOfConfiguredKind g type →
      (CGEventCallback K g type event).globals = g ∧
      (CGEventCallback K g type event).globals.gAssignedTriggerDown = g.gAssignedTriggerDown ∧
      (CGEventCallback K g type event).globals.gWorkerRunning = g.gWorkerRunning ∧
      (CGEventCallback K g type event).globals.gAwaitingKeyUp = g.gAwaitingKeyUp ∧
      (CGEventCallback K g type event).spawned = 0) := by
  refine ⟨callback_ret K g type event, fun h => ?_⟩
  obtain ⟨h1, h2⟩ := callback_other K g type event h
  rw [h1]
  exact ⟨rfl, rfl, rfl, rfl, h2⟩

/-- Witness for C7: a key-down of the configured key code while the mouse trigger is active. -/
theorem callback_observes_only_witness :
    (CGEventCallback macFlagMasks initialGlobals .kCGEventKeyDown ⟨0, 0, 0⟩).ret =
      some ⟨0, 0, 0⟩ ∧
    (CGEventCallback macFlagMasks initialGlobals .kCGEventKeyDown ⟨0, 0, 0⟩).globals =
      initialGlobals :=
  have h := callback_observes_only macFlagMasks initialGlobals .kCGEventKeyDown ⟨0, 0, 0⟩
  ⟨h.1, (h.2 (by decide)).1⟩

/-! ## C8 -/

/-- C8 fails as stated: with the interval configured to 500 ms and Option sampled as held, the
scripted sleeps of one iteration add up to 1190 ms, more than 500 + 300 ms. -/
theorem iteration_sleep_exceeds_bound :
    ¬ (totalSleep (workerIteration macFlagMasks
        { mouseDown := true, mouseUp := true
          gRepeatInterval := (setRepeatIntervalMilliseconds initialGlobals 500).gRepeatInterval
          flagsEvent := some 0x80000
          gAssignedTriggerDown := false, gShouldQuit := 0 }) ≤ (500 + 300) * 1000) := by
  rw [totalSleep_workerIteration, delayUs_of_interval macFlagMasks 500 (by decide) _
    (by rw [setRepeatInterval_value]; norm_num)]
  simp [optionSampled, macFlagMasks]

/-- C8 (amended): for every configured repeat interval `i` in [1, 500] ms, the scripted sleeps
of one full iteration of `CancelAnimationWorker` add up to `i + 190` ms when Option is not
sampled as held and to `2 i + 190` ms when it is; so the total is at most `2 i + 190` ms in
every case, and at most `i + 300` ms whenever Option is not sampled as held or `i ≤ 110`.  A
worker whose loop test at the end of that iteration finds the trigger released returns after
it: its trace is that one iteration followed by the store `gWorkerRunning = false`, so it
terminates within the same time of the start of the iteration. -/
theorem iteration_sleep_bound (K : FlagMasks) (i : Nat) (h1 : 1 ≤ i) (h500 : i ≤ 500)
    (o : WorkerObs) (ho : o.gRepeatInterval = (i : ℚ) / 1000) :
    (optionSampled K o = false → totalSleep (workerIteration K o) = (i + 190) * 1000) ∧
    (optionSampled K o = true → totalSleep (workerIteration K o) = (2 * i + 190) * 1000) ∧
    totalSleep (workerIteration K o) ≤ (2 * i + 190) * 1000 ∧
    (optionSampled K o = false ∨ i ≤ 110 →
      totalSleep (workerIteration K o) ≤ (i + 300) * 1000) ∧
    (o.gAssignedTriggerDown = false → ∀ rest : List WorkerObs,
      CancelAnimationWorker K (o :: rest) =
        (workerIteration K o ++ [Act.store .gWorkerRunning false], true) ∧
      (CancelAnimationWorker K (o :: rest)).2 = true ∧
      totalSleep (CancelAnimationWorker K (o :: rest)).1 ≤ (2 * i + 190) * 1000 ∧
      (optionSampled K o = false ∨ i ≤ 110 →
        totalSleep (CancelAnimationWorker K (o :: rest)).1 ≤ (i + 300) * 1000)) := by
  have hsleep : ∀ rest : List WorkerObs, o.gAssignedTriggerDown = false →
      totalSleep (CancelAnimationWorker K (o :: rest)).1 = totalSleep (workerIteration K o) := by
    intro rest hrel
    rw [worker_returns_when_released K o rest hrel, totalSleep_append]
    simp [totalSleep]
  have hnum : (optionSampled K o = false →
        totalSleep (workerIteration K o) = (i + 190) * 1000) ∧
      (optionSampled K o = true → totalSleep (workerIteration K o) = (2 * i + 190) * 1000) ∧
      totalSleep (workerIteration K o) ≤ (2 * i + 190) * 1000 ∧
      (optionSampled K o = false ∨ i ≤ 110 →
        totalSleep (workerIteration K o) ≤ (i + 300) * 1000) := by
    rw [totalSleep_workerIteration, delayUs_of_interval K i h500 o ho]
    cases hs : optionSampled K o <;> simp <;> omega
  refine ⟨hnum.1, hnum.2.1, hnum.2.2.1, hnum.2.2.2, fun hrel rest => ?_⟩
  refine ⟨worker_returns_when_released K o rest hrel, ?_, ?_, ?_⟩
  · rw [worker_returns_when_released K o rest hrel]
  · rw [hsleep rest hrel]
    exact hnum.2.2.1
  · rw [hsleep rest hrel]
    exact hnum.2.2.2

/-- Witness for C8 (amended): the default interval of 200 ms, Option held, and the trigger found
released by the loop test of the first iteration. -/
theorem iteration_sleep_bound_witness :
    (CancelAnimationWorker macFlagMasks
      [{ mouseDown := true, mouseUp := true, gRepeatInterval := (200 : Nat) / 1000
         flagsEvent := some 0x80000, gAssignedTriggerDown := false, gShouldQuit := 0 }]).2 =
      true ∧
    totalSleep (CancelAnimationWorker macFlagMasks
      [{ mouseDown := true, mouseUp := true, gRepeatInterval := (200 : Nat) / 1000
         flagsEvent := some 0x80000, gAssignedTriggerDown := false, gShouldQuit := 0 }]).1 ≤
      (2 * 200 + 190) * 1000 :=
  have h := (iteration_sleep_bound macFlagMasks 200 (by decide) (by decide)
    { mouseDown := true, mouseUp := true, gRepeatInterval := (200 : Nat) / 1000
      flagsEvent := some 0x80000, gAssignedTriggerDown := false, gShouldQuit := 0 }
    rfl).2.2.2.2 rfl []
  ⟨h.2.1, h.2.2.1⟩

/-! ## C9 -/

/-- C9: `CancelAnimationWorker` runs the iterations up to and including the first one whose
loop test finds `gAssignedTriggerDown` false or `gShouldQuit` set, so at least one whatever the
flags are; each iteration posts the left click and then exactly four key events and stores to
no shared flag; the worker returns iff such an iteration exists, and exactly then its last
action, and its only store, is `gWorkerRunning = false`. -/
theorem worker_exit_condition (K : FlagMasks) (obs : List WorkerObs) :
    (CancelAnimationWorker K obs).1 =
      iterationsTrace K (iterationsRun obs) ++
        (if obs.any loopExits then [Act.store .gWorkerRunning false] else []) ∧
    ((CancelAnimationWorker K obs).2 = true ↔
      ∃ o ∈ obs, o.gAssignedTriggerDown = false ∨ o.gShouldQuit ≠ 0) ∧
    (∀ (o : WorkerObs) (rest : List WorkerObs),
      iterationsRun (o :: rest) = o :: (if loopExits o then [] else iterationsRun rest)) ∧
    (∀ o : WorkerObs,
      postedEvents (workerIteration K o) = iterationEvents o ∧
      stores (workerIteration K o) = []) ∧
    stores (CancelAnimationWorker K obs).1 =
      (if (CancelAnimationWorker K obs).2 then [(SharedFlag.gWorkerRunning, false)] else []) := by
  rw [worker_trace]
  refine ⟨rfl, ?_, iterationsRun_cons, fun o =>
    ⟨postedEvents_workerIteration K o, stores_workerIteration K o⟩, ?_⟩
  · simp [loopExits]
  · simp only [stores_append, stores_iterationsTrace, List.nil_append]
    cases obs.any loopExits <;> simp [stores]

/-! ## C10 -/

/-- C10: with the key trigger active, a key-up event of any key code and any modifier flags
clears `gAssignedTriggerDown` and `gAwaitingKeyUp` when `gAwaitingKeyUp` was set and changes
no state when it was not; so while the trigger is held, the release of a key other than the
trigger key clears `gAssignedTriggerDown` too. -/
theorem key_release_ignores_key (K : FlagMasks) (g : Globals) (event : CGEvent)
    (hkey : g.gUseMouseTrigger = false) :
    (g.gAwaitingKeyUp = true →
      (CGEventCallback K g .kCGEventKeyUp event).globals =
        { g with gAssignedTriggerDown := false, gAwaitingKeyUp := false }) ∧
    (g.gAwaitingKeyUp = false → (CGEventCallback K g .kCGEventKeyUp event).globals = g) ∧
    (CGEventCallback K g .kCGEventKeyUp event).spawned = 0 ∧
    (g.gAwaitingKeyUp = true → castUInt16 event.keyboardEventKeycode ≠ g.gTriggerKeyCode →
      (CGEventCallback K g .kCGEventKeyUp event).globals.gAssignedTriggerDown = false) := by
  rw [callback_key_release K g event hkey]
  cases ha : g.gAwaitingKeyUp <;> simp

/-- Witness for C10: key trigger on key code 15, held; key code 6 is released. -/
theorem key_release_ignores_key_witness :
    (CGEventCallback macFlagMasks
      { initialGlobals with
        gUseMouseTrigger := false, gTriggerKeyCode := 15, gAssignedTriggerDown := true,
        gAwaitingKeyUp := true, gWorkerRunning := true }
      .kCGEventKeyUp ⟨0, 0, 6⟩).globals.gAssignedTriggerDown = false :=
  (key_release_ignores_key macFlagMasks
    { initialGlobals with
      gUseMouseTrigger := false, gTriggerKeyCode := 15, gAssignedTriggerDown := true,
      gAwaitingKeyUp := true, gWorkerRunning := true }
    ⟨0, 0, 6⟩ rfl).2.2.2 rfl (by decide)

end SunHavenAC
